import Mathlib

/-!
Shallow embedding of `src/python_rdap_script_domain_expiry.py`, a Nagios-style
domain-expiry check.  Effects are made explicit:

* the filesystem is a map from paths to `FileInfo` (content plus mtime);
* the clock (`time.time()`) is an integer parameter `now` (the script truncates
  it with `int(...)` before arithmetic; the float fractions play no role in the
  comparisons modelled here and the value is treated as constant for one run);
* the single HTTP request is a `FetchResult` parameter (the decoded JSON
  `events` array on success, the exception text on failure);
* `sys.exit` driven termination (`die`) is the `died` constructor of `Outcome`;
* CPython's `datetime.strptime(...).timestamp()` interprets a naive datetime in
  the LOCAL timezone; the local zone is modelled as a fixed UTC offset `tzoff`
  in seconds (DST transitions and platform `mktime` range limits are not
  modelled; the float result of `timestamp()` is modelled as an exact value).
-/

namespace DomainExpiry

/-! ### Constants (lines 9-15 of the script) -/

def CACHE_DIR : String := "/tmp/check_domain_cache"

def CACHE_AGE : Int := 8 * 3600

def STATE_OK : Int := 0
def STATE_WARNING : Int := 1
def STATE_CRITICAL : Int := 2
def STATE_UNKNOWN : Int := 3

/-- Result of a run of a piece of the script: either a value, or the script
    has terminated via `die(state, message)` (print + `sys.exit`). -/
inductive Outcome (α : Type) where
  | ok (val : α)
  | died (state : Int) (message : String)
deriving DecidableEq, Repr

/-! ### Cache store (lines 23-39) -/

/-- A cache file on disk: raw content and modification time in epoch seconds. -/
structure FileInfo where
  content : String
  mtime : Int
deriving DecidableEq, Repr

/-- `os.path.join(CACHE_DIR, f"{domain}.cache")`.  (The `os.path.join` corner
    case of an absolute-path `domain` is not modelled.) -/
def get_cache_file (domain : String) : String :=
  CACHE_DIR ++ "/" ++ domain ++ ".cache"

/-- Characters stripped by Python's `str.strip()`: the code points CPython's
    `Py_UNICODE_ISSPACE` accepts — `\t`-`\r`, `\x1c`-`\x1f`, the space,
    `\x85`, `\xa0`, and the Unicode space separators and line/paragraph
    separators. -/
def isPySpace (c : Char) : Bool :=
  decide ((0x09 ≤ c.toNat ∧ c.toNat ≤ 0x0d) ∨
    (0x1c ≤ c.toNat ∧ c.toNat ≤ 0x1f) ∨
    c.toNat = 0x20 ∨ c.toNat = 0x85 ∨ c.toNat = 0xa0 ∨ c.toNat = 0x1680 ∨
    (0x2000 ≤ c.toNat ∧ c.toNat ≤ 0x200a) ∨
    c.toNat = 0x2028 ∨ c.toNat = 0x2029 ∨ c.toNat = 0x202f ∨
    c.toNat = 0x205f ∨ c.toNat = 0x3000)

/-- Python `s.strip()`. -/
def pyStrip (s : String) : String :=
  ⟨((s.data.dropWhile isPySpace).reverse.dropWhile isPySpace).reverse⟩

/-- `load_cached_data(domain)`: returns the stripped file content when the
    cache file exists and is younger than `CACHE_AGE`, else `None`. -/
def load_cached_data (fs : String → Option FileInfo) (now : Int)
    (domain : String) : Option String :=
  match fs (get_cache_file domain) with
  | some fi => if now - fi.mtime < CACHE_AGE then some (pyStrip fi.content) else none
  | none => none

/-- `save_to_cache(domain, data)`: writes `data` to the cache file; the file's
    mtime becomes the current time. -/
def save_to_cache (fs : String → Option FileInfo) (now : Int)
    (domain : String) (data : String) : String → Option FileInfo :=
  fun p => if p = get_cache_file domain then some ⟨data, now⟩ else fs p

/-! ### Date parser (lines 42-50)

`datetime.strptime` is modelled at the level of CPython's `_strptime` regexes
for the two concrete format strings used by the script:
`%Y` is exactly four digits; `%m expects 1-12`, `%d` 1-31, `%H` 0-23,
`%M` 0-59, `%S` 0-61 (each one or two digits); `%f` is one to six digits,
right-padded to microseconds.  The subsequent `datetime` construction
additionally requires `year ≥ 1`, `day ≤ days_in_month` and `second ≤ 59`
(a `%S` of 60/61 makes the constructor raise `ValueError`, which the script's
`except ValueError` treats like a format mismatch).  For these formats the
maximal-munch digit scan below accepts exactly the strings the backtracking
regexes accept, because every field is followed by a non-digit literal. -/

def digitsToNat (ds : List Char) : Nat :=
  ds.foldl (fun a c => 10 * a + (c.toNat - 48)) 0

/-- Take up to `n` leading decimal digits. -/
def takeDigits : Nat → List Char → List Char × List Char
  | 0, cs => ([], cs)
  | _ + 1, [] => ([], [])
  | n + 1, c :: cs =>
    if c.isDigit then
      let p := takeDigits n cs
      (c :: p.1, p.2)
    else ([], c :: cs)

/-- Parse between 1 and `maxLen` digits; returns value, digit count, rest. -/
def parseNum (maxLen : Nat) (cs : List Char) : Option (Nat × Nat × List Char) :=
  let p := takeDigits maxLen cs
  if p.1.isEmpty then none else some (digitsToNat p.1, p.1.length, p.2)

/-- Match one format-string literal character.  CPython compiles the
    `strptime` format regex with `re.IGNORECASE`, so the letter literals
    `T` and `Z` also match their lowercase forms (for the non-letter
    literals `-`, `:`, `.` the caseless comparison is the identity). -/
def expectLit (c : Char) : List Char → Option (List Char)
  | [] => none
  | x :: xs => if x.toLower = c.toLower then some xs else none

/-- The common `%Y-%m-%dT%H:%M:%S` core of both format strings, with the
    per-field numeric ranges enforced by CPython's `_strptime` regexes. -/
def parseYMDHMS (cs : List Char) :
    Option (Nat × Nat × Nat × Nat × Nat × Nat × List Char) := do
  let (y, ylen, cs) ← parseNum 4 cs
  if ylen = 4 then
    let cs ← expectLit '-' cs
    let (m, _, cs) ← parseNum 2 cs
    if 1 ≤ m ∧ m ≤ 12 then
      let cs ← expectLit '-' cs
      let (d, _, cs) ← parseNum 2 cs
      if 1 ≤ d ∧ d ≤ 31 then
        let cs ← expectLit 'T' cs
        let (hh, _, cs) ← parseNum 2 cs
        if hh ≤ 23 then
          let cs ← expectLit ':' cs
          let (mi, _, cs) ← parseNum 2 cs
          if mi ≤ 59 then
            let cs ← expectLit ':' cs
            let (ss, _, cs) ← parseNum 2 cs
            if ss ≤ 61 then
              some (y, m, d, hh, mi, ss, cs)
            else none
          else none
        else none
      else none
    else none
  else none

def isLeapYear (y : Nat) : Bool :=
  y % 4 = 0 && (y % 100 ≠ 0 || y % 400 = 0)

def daysInMonth (y m : Nat) : Nat :=
  if m = 2 then (if isLeapYear y then 29 else 28)
  else if m = 4 || m = 6 || m = 9 || m = 11 then 30
  else 31

/-- Validation done by the `datetime(...)` constructor (the ranges the regex
    level has not already pinned down). -/
def validDateTime (y _m d _hh _mi ss : Nat) : Bool :=
  decide (1 ≤ y ∧ 1 ≤ d ∧ d ≤ daysInMonth y _m ∧ ss ≤ 59)

/-- The naive `datetime` produced by a successful `strptime`. -/
structure PyDateTime where
  year : Nat
  month : Nat
  day : Nat
  hour : Nat
  minute : Nat
  second : Nat
  micro : Nat
deriving DecidableEq, Repr

/-- `strptime(date_str, "%Y-%m-%dT%H:%M:%S.%fZ")`. -/
def strptimeFormatA (s : String) : Option PyDateTime := do
  let (y, m, d, hh, mi, ss, rest) ← parseYMDHMS s.data
  let rest ← expectLit '.' rest
  let (fval, flen, rest) ← parseNum 6 rest
  let rest ← expectLit 'Z' rest
  if rest.isEmpty && validDateTime y m d hh mi ss then
    some ⟨y, m, d, hh, mi, ss, fval * 10 ^ (6 - flen)⟩
  else none

/-- `strptime(date_str, "%Y-%m-%dT%H:%M:%SZ")`. -/
def strptimeFormatB (s : String) : Option PyDateTime := do
  let (y, m, d, hh, mi, ss, rest) ← parseYMDHMS s.data
  let rest ← expectLit 'Z' rest
  if rest.isEmpty && validDateTime y m d hh mi ss then
    some ⟨y, m, d, hh, mi, ss, 0⟩
  else none

/-- Days from 0001-01-01 to the given proleptic-Gregorian civil date. -/
def civilDays (y m d : Nat) : Nat :=
  365 * (y - 1) + (y - 1) / 4 - (y - 1) / 100 + (y - 1) / 400
    + (List.range (m - 1)).foldl (fun a i => a + daysInMonth y (i + 1)) 0
    + (d - 1)

/-- Days from 0001-01-01 to 1970-01-01. -/
def EPOCH_DAYS : Nat := civilDays 1970 1 1

/-- Epoch seconds of the datetime's fields read as a UTC instant. -/
def naiveEpochSeconds (dt : PyDateTime) : Int :=
  86400 * ((civilDays dt.year dt.month dt.day : Int) - (EPOCH_DAYS : Int))
    + 3600 * dt.hour + 60 * dt.minute + dt.second

/-- `int(dt.timestamp())` for the naive `dt`: CPython interprets the naive
    datetime in the local timezone (offset `tzoff` seconds east of UTC), and
    `int(...)` truncates the float toward zero, so a negative value with a
    fractional part is rounded up. -/
def pyTimestampInt (tzoff : Int) (dt : PyDateTime) : Int :=
  let secs : Int := naiveEpochSeconds dt - tzoff
  if secs < 0 ∧ dt.micro ≠ 0 then secs + 1 else secs

/-- `parse_rdap_date(date_str)` (lines 42-50). -/
def parse_rdap_date (tzoff : Int) (date_str : String) : Outcome Int :=
  match strptimeFormatA date_str with
  | some dt => .ok (pyTimestampInt tzoff dt)
  | none =>
    match strptimeFormatB date_str with
    | some dt => .ok (pyTimestampInt tzoff dt)
    | none =>
      .died STATE_UNKNOWN ("UNKNOWN - Invalid expiration date format: " ++ date_str)

/-! ### RDAP lookup (lines 53-71) -/

/-- One entry of the response's `events` array; `none` models an absent key
    (and a JSON `null`), which `event.get(...)` turns into Python `None`. -/
structure RdapEvent where
  eventAction : Option String
  eventDate : Option String
deriving DecidableEq, Repr

structure RdapResponse where
  events : List RdapEvent
deriving DecidableEq, Repr

/-- Outcome of `requests.get(...)` + `response.json()`: the decoded body, or
    the text of whatever exception was raised. -/
inductive FetchResult where
  | success (resp : RdapResponse)
  | failure (err : String)
deriving DecidableEq, Repr

/-- The `for event in events` loop: the first event whose `eventAction` is
    `"expiration"` AND whose `eventDate` is truthy (non-`None`, non-empty)
    is returned; events failing either test are skipped. -/
def scanEvents : List RdapEvent → Option String
  | [] => none
  | e :: rest =>
    if e.eventAction = some "expiration" then
      match e.eventDate with
      | some d => if d = "" then scanEvents rest else some d
      | none => scanEvents rest
    else scanEvents rest

/-- Result of `get_domain_expiration` together with its observable effects. -/
structure GdeResult where
  outcome : Outcome String
  networkCalled : Bool
  saved : Option String
deriving DecidableEq, Repr

/-- The network half of `get_domain_expiration` (lines 58-71).  `die` raises
    `SystemExit`, which is not an `Exception`, so a `die` inside the `try`
    block is not caught by the `except` clause. -/
def rdapLookup (domain : String) (fetch : FetchResult) : GdeResult :=
  match fetch with
  | .failure e =>
    ⟨.died STATE_UNKNOWN ("UNKNOWN - Error fetching RDAP data: " ++ e), true, none⟩
  | .success resp =>
    match scanEvents resp.events with
    | some d => ⟨.ok d, true, some d⟩
    | none =>
      ⟨.died STATE_UNKNOWN ("UNKNOWN - Expiry date not found for " ++ domain), true, none⟩

/-- `get_domain_expiration(domain)` (lines 53-71): `if cached:` is Python
    truthiness, so both `None` and the empty string fall through to the
    network lookup. -/
def get_domain_expiration (fs : String → Option FileInfo) (now : Int)
    (domain : String) (fetch : FetchResult) : GdeResult :=
  match load_cached_data fs now domain with
  | some c => if c = "" then rdapLookup domain fetch else ⟨.ok c, false, none⟩
  | none => rdapLookup domain fetch

/-! ### Threshold evaluation and main (lines 74-94) -/

/-- `days_left = (exp_seconds - now_seconds) // 86400`: Python `//` is floor
    division. -/
def days_left_of (exp_seconds now_seconds : Int) : Int :=
  Int.fdiv (exp_seconds - now_seconds) 86400

/-- The `if/elif` cascade of `main` (lines 87-94): state and message of the
    `die` call that fires. -/
def thresholdCheck (domain expiration_date : String)
    (days_left warning critical : Int) : Int × String :=
  if days_left < 0 then
    (STATE_CRITICAL, "CRITICAL - Domain " ++ domain ++ " expired "
      ++ toString (-days_left) ++ " days ago (" ++ expiration_date ++ ").")
  else if days_left < critical then
    (STATE_CRITICAL, "CRITICAL - Domain " ++ domain ++ " will expire in "
      ++ toString days_left ++ " days (" ++ expiration_date ++ ").")
  else if days_left < warning then
    (STATE_WARNING, "WARNING - Domain " ++ domain ++ " will expire in "
      ++ toString days_left ++ " days (" ++ expiration_date ++ ").")
  else
    (STATE_OK, "OK - Domain " ++ domain ++ " will expire in "
      ++ toString days_left ++ " days (" ++ expiration_date ++ ").")

/-- One full run of `main` after argument parsing: the terminal `die`'s state
    and message, plus the run's observable effects. -/
structure MainResult where
  state : Int
  message : String
  networkCalled : Bool
  saved : Option String
deriving DecidableEq, Repr

/-- `main()` (lines 74-94) for a fixed domain and thresholds. -/
def runMain (domain : String) (warning critical : Int)
    (fs : String → Option FileInfo) (now : Int) (fetch : FetchResult)
    (tzoff : Int) : MainResult :=
  match (get_domain_expiration fs now domain fetch).outcome with
  | .died st m =>
    ⟨st, m, (get_domain_expiration fs now domain fetch).networkCalled,
      (get_domain_expiration fs now domain fetch).saved⟩
  | .ok expiration_date =>
    match parse_rdap_date tzoff expiration_date with
    | .died st m =>
      ⟨st, m, (get_domain_expiration fs now domain fetch).networkCalled,
        (get_domain_expiration fs now domain fetch).saved⟩
    | .ok exp_seconds =>
      ⟨(thresholdCheck domain expiration_date
          (days_left_of exp_seconds now) warning critical).1,
        (thresholdCheck domain expiration_date
          (days_left_of exp_seconds now) warning critical).2,
        (get_domain_expiration fs now domain fetch).networkCalled,
        (get_domain_expiration fs now domain fetch).saved⟩

/-! ### Specification-side definitions (for refinement statements) -/

/-- Spec-side selection predicate: an event usable as THE expiration event —
    action is `"expiration"` and a non-empty date is present. -/
def isUsableExpirationEvent (e : RdapEvent) : Bool :=
  e.eventAction == some "expiration" && e.eventDate != none && e.eventDate != some ""

/-- Spec-side extraction: the date of the first usable expiration event. -/
def specFirstUsable (events : List RdapEvent) : Option String :=
  (events.find? isUsableExpirationEvent).bind (·.eventDate)

/-- Uppercase status name attached to each exit code by the output contract. -/
def statusName (st : Int) : String :=
  if st = 0 then "OK"
  else if st = 1 then "WARNING"
  else if st = 2 then "CRITICAL"
  else "UNKNOWN"

/-! ### Helper lemmas -/

theorem scanEvents_eq_specFirstUsable (evs : List RdapEvent) :
    scanEvents evs = specFirstUsable evs := by
  induction evs with
  | nil => rfl
  | cons e rest ih =>
    by_cases ha : e.eventAction = some "expiration"
    · cases hd : e.eventDate with
      | none =>
        have hu : isUsableExpirationEvent e = false := by
          simp [isUsableExpirationEvent, hd]
        rw [scanEvents, if_pos ha, hd]
        rw [specFirstUsable, List.find?_cons_of_neg _ (by simp [hu])]
        exact ih
      | some s =>
        by_cases hs : s = ""
        · have hu : isUsableExpirationEvent e = false := by
            simp [isUsableExpirationEvent, hd, hs]
          rw [scanEvents, if_pos ha, hd]
          dsimp only
          rw [if_pos hs]
          rw [specFirstUsable, List.find?_cons_of_neg _ (by simp [hu])]
          exact ih
        · have hu : isUsableExpirationEvent e = true := by
            simp [isUsableExpirationEvent, ha, hd, hs]
          rw [scanEvents, if_pos ha, hd]
          dsimp only
          rw [if_neg hs]
          rw [specFirstUsable, List.find?_cons_of_pos _ hu, Option.bind, hd]
    · have hu : isUsableExpirationEvent e = false := by
        simp [isUsableExpirationEvent, ha]
      rw [scanEvents, if_neg ha]
      rw [specFirstUsable, List.find?_cons_of_neg _ (by simp [hu])]
      exact ih

theorem scanEvents_some_ne_empty :
    ∀ (evs : List RdapEvent) (d : String), scanEvents evs = some d → d ≠ "" := by
  intro evs
  induction evs with
  | nil => intro d h; simp [scanEvents] at h
  | cons e rest ih =>
    intro d h
    by_cases ha : e.eventAction = some "expiration"
    · rw [scanEvents, if_pos ha] at h
      cases hd : e.eventDate with
      | none => rw [hd] at h; exact ih d h
      | some s =>
        rw [hd] at h
        dsimp only at h
        by_cases hs : s = ""
        · rw [if_pos hs] at h; exact ih d h
        · rw [if_neg hs] at h
          cases h
          exact hs
    · rw [scanEvents, if_neg ha] at h
      exact ih d h

theorem rdapLookup_networkCalled (domain : String) (fetch : FetchResult) :
    (rdapLookup domain fetch).networkCalled = true := by
  cases fetch with
  | failure e => rfl
  | success resp =>
    cases h : scanEvents resp.events with
    | none => simp [rdapLookup, h]
    | some d => simp [rdapLookup, h]

theorem gde_lookup_ok_ne_empty (domain : String) (fetch : FetchResult)
    (v : String) : (rdapLookup domain fetch).outcome = .ok v → v ≠ "" := by
  intro h
  cases fetch with
  | failure e => simp [rdapLookup] at h
  | success resp =>
    unfold rdapLookup at h
    dsimp only at h
    cases hs : scanEvents resp.events with
    | some d =>
      rw [hs] at h
      dsimp only at h
      cases h
      exact scanEvents_some_ne_empty resp.events v hs
    | none =>
      rw [hs] at h
      simp at h

theorem parse_rdap_date_shape (tzoff : Int) (s : String) :
    (∃ n, parse_rdap_date tzoff s = .ok n) ∨
    parse_rdap_date tzoff s =
      .died STATE_UNKNOWN ("UNKNOWN - Invalid expiration date format: " ++ s) := by
  unfold parse_rdap_date
  cases strptimeFormatA s with
  | some dt => exact Or.inl ⟨_, rfl⟩
  | none =>
    cases strptimeFormatB s with
    | some dt => exact Or.inl ⟨_, rfl⟩
    | none => exact Or.inr rfl

theorem gde_outcome_shape (fs : String → Option FileInfo) (now : Int)
    (domain : String) (fetch : FetchResult) :
    (∃ v, (get_domain_expiration fs now domain fetch).outcome = .ok v) ∨
    (∃ r, (get_domain_expiration fs now domain fetch).outcome =
      .died STATE_UNKNOWN ("UNKNOWN - " ++ r)) := by
  have hlook : (∃ v, (rdapLookup domain fetch).outcome = .ok v) ∨
      (∃ r, (rdapLookup domain fetch).outcome =
        .died STATE_UNKNOWN ("UNKNOWN - " ++ r)) := by
    cases fetch with
    | failure e => exact Or.inr ⟨"Error fetching RDAP data: " ++ e, rfl⟩
    | success resp =>
      unfold rdapLookup
      dsimp only
      cases hs : scanEvents resp.events with
      | some d => exact Or.inl ⟨d, rfl⟩
      | none => exact Or.inr ⟨"Expiry date not found for " ++ domain, rfl⟩
  unfold get_domain_expiration
  cases hl : load_cached_data fs now domain with
  | none => exact hlook
  | some c =>
    dsimp only
    by_cases hc : c = ""
    · rw [if_pos hc]; exact hlook
    · rw [if_neg hc]; exact Or.inl ⟨c, rfl⟩

/-! ### Claim theorems -/

/-- C1: the claim says both date formats are interpreted as UTC instants.
The code calls `.timestamp()` on a NAIVE `datetime`, which CPython interprets
in the local timezone.  With the clock in UTC (`tzoff = 0`) both example
strings do yield the UTC epoch second 1740787200 of 2025-03-01T00:00:00 UTC
(fractional part truncated), but on a host one hour east of UTC
(`tzoff = 3600`) the same string yields 1740783600, not the UTC epoch second:
the code is timezone-dependent where both the spec and the `Z` designator in
the dates demand UTC. -/
theorem C1_parse_rdap_date_local_tz :
    parse_rdap_date 0 "2025-03-01T00:00:00.123456Z" = .ok 1740787200 ∧
    parse_rdap_date 0 "2025-03-01T00:00:00Z" = .ok 1740787200 ∧
    parse_rdap_date 3600 "2025-03-01T00:00:00Z" = .ok 1740783600 ∧
    (1740783600 : Int) ≠ 1740787200 := by
  refine ⟨by decide, by decide, by decide, by decide⟩

/-- C3 counterexample: the claim says `days_left == warning_days` yields OK for
EVERY `warning_days` and `critical_days`.  With `warning = 30`,
`critical = 40` and `days_left = 30` the second branch (`days_left <
critical`) fires first and the result is CRITICAL (state 2), not OK. -/
theorem C3_counterexample_warning_boundary :
    (thresholdCheck "example.com" "2030-01-01T00:00:00Z" 30 30 40).1 =
      STATE_CRITICAL ∧
    STATE_CRITICAL ≠ STATE_OK := by
  refine ⟨by decide, by decide⟩

/-- C3 (amended): the evaluator applies the decision order first-match-wins:
`days_left < 0` yields CRITICAL with "expired N days ago" where
`N = -days_left`; else `days_left < critical` yields CRITICAL; else
`days_left < warning` yields WARNING; else OK.  The comparisons are strict,
so — provided `days_left` is non-negative — `days_left == critical_days` is
never CRITICAL, and `days_left == warning_days` yields OK provided
`warning_days` is non-negative and at least `critical_days`.  (Without those
provisos the claim fails: a negative equal pair hits the expired branch, and
`critical > warning` makes the critical branch fire at `days_left ==
warning_days`.) -/
theorem C3_threshold_decision_order (domain ed : String) (dl w c : Int) :
    (dl < 0 → thresholdCheck domain ed dl w c =
      (STATE_CRITICAL, "CRITICAL - Domain " ++ domain ++ " expired "
        ++ toString (-dl) ++ " days ago (" ++ ed ++ ").")) ∧
    (0 ≤ dl → dl < c → (thresholdCheck domain ed dl w c).1 = STATE_CRITICAL) ∧
    (0 ≤ dl → c ≤ dl → dl < w → (thresholdCheck domain ed dl w c).1 = STATE_WARNING) ∧
    (0 ≤ dl → c ≤ dl → w ≤ dl → (thresholdCheck domain ed dl w c).1 = STATE_OK) ∧
    (0 ≤ dl → dl = c → (thresholdCheck domain ed dl w c).1 ≠ STATE_CRITICAL) ∧
    (0 ≤ w → c ≤ w → dl = w → (thresholdCheck domain ed dl w c).1 = STATE_OK) := by
  unfold thresholdCheck STATE_OK STATE_WARNING STATE_CRITICAL
  refine ⟨?_, ?_, ?_, ?_, ?_, ?_⟩ <;> intros <;> split_ifs <;>
    first
    | rfl
    | omega

/-- C3 witness: concrete boundary instances — 5 days past expiry is CRITICAL
with the "expired 5 days ago" message; `days_left = critical = 10` is not
CRITICAL; `days_left = warning = 30` (with critical 10) is OK. -/
theorem C3_threshold_decision_order_witness :
    thresholdCheck "example.com" "x" (-5) 30 10 =
      (STATE_CRITICAL, "CRITICAL - Domain " ++ "example.com" ++ " expired "
        ++ toString (-(-5 : Int)) ++ " days ago (" ++ "x" ++ ").") ∧
    (thresholdCheck "example.com" "x" 10 30 10).1 ≠ STATE_CRITICAL ∧
    (thresholdCheck "example.com" "x" 30 30 10).1 = STATE_OK :=
  ⟨(C3_threshold_decision_order "example.com" "x" (-5) 30 10).1 (by decide),
   (C3_threshold_decision_order "example.com" "x" 10 30 10).2.2.2.2.1
     (by decide) (by decide),
   (C3_threshold_decision_order "example.com" "x" 30 30 10).2.2.2.2.2
     (by decide) (by decide) (by decide)⟩

/-- C4: `days_left` is Python floor division `(exp - now) // 86400`, i.e. the
floor of the exact rational quotient, also for negative numerators; the
concrete conjuncts contrast floor division (`(0 - 1) // 86400 = -1`) with
truncation toward zero (`Int.tdiv` gives 0 there). -/
theorem C4_days_left_floor_division :
    (∀ e n : Int, days_left_of e n = ⌊((e : ℚ) - (n : ℚ)) / 86400⌋) ∧
    days_left_of 0 1 = -1 ∧
    Int.tdiv (0 - 1) 86400 = 0 := by
  refine ⟨?_, by decide, by decide⟩
  intro e n
  unfold days_left_of
  rw [Int.fdiv_eq_ediv _ (by norm_num)]
  have h := Rat.floor_intCast_div_natCast (e - n) 86400
  push_cast at h
  omega

/-- C10: whenever `days_left < 0`, the CRITICAL message reports
`N = -days_left` days, and `N ≥ 1`; "expired 0 days ago" is impossible. -/
theorem C10_expired_at_least_one_day (domain ed : String) (dl w c : Int)
    (h : dl < 0) :
    thresholdCheck domain ed dl w c =
      (STATE_CRITICAL, "CRITICAL - Domain " ++ domain ++ " expired "
        ++ toString (-dl) ++ " days ago (" ++ ed ++ ").") ∧
    1 ≤ -dl := by
  unfold thresholdCheck
  rw [if_pos h]
  exact ⟨rfl, by omega⟩

/-- C2 counterexample: the claim says the decision is made at the FIRST event
whose `eventAction` is "expiration" — if its date field is missing, the
outcome must be UNKNOWN.  On a cache miss with an events list whose first
expiration event has no `eventDate` but whose second one does, the first
conjunct shows the claim's selected event is the date-less first one (so the
claim demands UNKNOWN), yet the code keeps scanning and returns the second
event's date. -/
theorem C2_counterexample_skips_dateless_event :
    List.find? (fun e => e.eventAction == some "expiration")
        [RdapEvent.mk (some "expiration") none,
         RdapEvent.mk (some "expiration") (some "2030-01-01T00:00:00Z")] =
      some (RdapEvent.mk (some "expiration") none) ∧
    get_domain_expiration (fun _ => none) 0 "example.com"
        (.success ⟨[RdapEvent.mk (some "expiration") none,
                    RdapEvent.mk (some "expiration") (some "2030-01-01T00:00:00Z")]⟩) =
      ⟨.ok "2030-01-01T00:00:00Z", true, some "2030-01-01T00:00:00Z"⟩ := by
  refine ⟨by decide, by decide⟩

/-- C2 (amended): on a cache miss, `get_domain_expiration` selects the first
entry of the events list whose `eventAction` equals "expiration" AND whose
`eventDate` is present and non-empty; that date is saved to the cache and
returned.  If no such entry exists the outcome is UNKNOWN with a message
naming the domain.  (Expiration events with a missing or empty date are
skipped, not terminal, contrary to the claim as stated.) -/
theorem C2_first_usable_expiration_event (fs : String → Option FileInfo)
    (now : Int) (domain : String) (events : List RdapEvent)
    (hmiss : load_cached_data fs now domain = none ∨
      load_cached_data fs now domain = some "") :
    (∀ d, specFirstUsable events = some d →
      get_domain_expiration fs now domain (.success ⟨events⟩) =
        ⟨.ok d, true, some d⟩) ∧
    (specFirstUsable events = none →
      get_domain_expiration fs now domain (.success ⟨events⟩) =
        ⟨.died STATE_UNKNOWN ("UNKNOWN - Expiry date not found for " ++ domain),
          true, none⟩) := by
  have hlookup : get_domain_expiration fs now domain (.success ⟨events⟩) =
      rdapLookup domain (.success ⟨events⟩) := by
    unfold get_domain_expiration
    rcases hmiss with h | h <;> rw [h]
    dsimp only
    rw [if_pos rfl]
  constructor
  · intro d hd
    rw [hlookup]
    unfold rdapLookup
    rw [← scanEvents_eq_specFirstUsable] at hd
    dsimp only
    rw [hd]
  · intro hd
    rw [hlookup]
    unfold rdapLookup
    rw [← scanEvents_eq_specFirstUsable] at hd
    dsimp only
    rw [hd]

/-- C2 witness: a cache-less domain whose events list carries a registration
event followed by a usable expiration event; the expiration date is returned
and saved. -/
theorem C2_first_usable_expiration_event_witness :
    get_domain_expiration (fun _ => none) 0 "example.com"
        (.success ⟨[RdapEvent.mk (some "registration") (some "2000-01-01T00:00:00Z"),
                    RdapEvent.mk (some "expiration") (some "2030-01-01T00:00:00Z")]⟩) =
      ⟨.ok "2030-01-01T00:00:00Z", true, some "2030-01-01T00:00:00Z"⟩ :=
  (C2_first_usable_expiration_event (fun _ => none) 0 "example.com"
      [RdapEvent.mk (some "registration") (some "2000-01-01T00:00:00Z"),
       RdapEvent.mk (some "expiration") (some "2030-01-01T00:00:00Z")]
      (Or.inl rfl)).1
    "2030-01-01T00:00:00Z" (by decide)

/-- C5 counterexample: the claim says every fresh cache entry (age < 28800 s)
is returned with no network call.  A fresh cache file whose content is all
whitespace strips to the empty string, which `if cached:` treats as falsy, so
the code performs the network lookup anyway. -/
theorem C5_counterexample_whitespace_cache :
    ((10 : Int) - 5 < CACHE_AGE) ∧
    (get_domain_expiration
        (fun p => if p = get_cache_file "example.com"
          then some ⟨"   ", 5⟩ else none)
        10 "example.com" (.failure "boom")).networkCalled = true := by
  refine ⟨by decide, by decide⟩

/-- C5 (amended): for every domain with a fresh cache entry (age strictly
below 28800 s) whose content is not all whitespace, `get_domain_expiration`
returns the cached value (stripped of surrounding whitespace) and performs no
network call; for every domain with no cache file, or a stale one
(age ≥ 28800 s), the lookup service is queried. -/
theorem C5_cache_freshness (fs : String → Option FileInfo) (now : Int)
    (domain : String) (fetch : FetchResult) :
    (∀ fi, fs (get_cache_file domain) = some fi → now - fi.mtime < CACHE_AGE →
      pyStrip fi.content ≠ "" →
      get_domain_expiration fs now domain fetch =
        ⟨.ok (pyStrip fi.content), false, none⟩) ∧
    (fs (get_cache_file domain) = none →
      (get_domain_expiration fs now domain fetch).networkCalled = true) ∧
    (∀ fi, fs (get_cache_file domain) = some fi → CACHE_AGE ≤ now - fi.mtime →
      (get_domain_expiration fs now domain fetch).networkCalled = true) := by
  refine ⟨?_, ?_, ?_⟩
  · intro fi hfs hfresh hne
    unfold get_domain_expiration load_cached_data
    rw [hfs]
    dsimp only
    rw [if_pos hfresh]
    dsimp only
    rw [if_neg hne]
  · intro hfs
    unfold get_domain_expiration load_cached_data
    rw [hfs]
    exact rdapLookup_networkCalled domain fetch
  · intro fi hfs hstale
    unfold get_domain_expiration load_cached_data
    rw [hfs]
    dsimp only
    rw [if_neg (by omega)]
    exact rdapLookup_networkCalled domain fetch

/-- C5 witness: a fresh cache hit answers without the network even though the
fetch would fail, and a stale entry of the same age difference 28800 s
triggers the lookup. -/
theorem C5_cache_freshness_witness :
    get_domain_expiration
        (fun p => if p = get_cache_file "example.com"
          then some ⟨"2030-01-01T00:00:00Z", 0⟩ else none)
        100 "example.com" (.failure "boom") =
      ⟨.ok (pyStrip "2030-01-01T00:00:00Z"), false, none⟩ ∧
    (get_domain_expiration
        (fun p => if p = get_cache_file "example.com"
          then some ⟨"2030-01-01T00:00:00Z", 0⟩ else none)
        28800 "example.com" (.failure "boom")).networkCalled = true :=
  ⟨(C5_cache_freshness
      (fun p => if p = get_cache_file "example.com"
        then some ⟨"2030-01-01T00:00:00Z", 0⟩ else none)
      100 "example.com" (.failure "boom")).1
      ⟨"2030-01-01T00:00:00Z", 0⟩ (by decide) (by decide) (by decide),
   (C5_cache_freshness
      (fun p => if p = get_cache_file "example.com"
        then some ⟨"2030-01-01T00:00:00Z", 0⟩ else none)
      28800 "example.com" (.failure "boom")).2.2
      ⟨"2030-01-01T00:00:00Z", 0⟩ (by decide) (by decide)⟩

/-- C6 counterexample: the claim says save-then-load returns the string
EXACTLY, unmodified.  Saving a timestamp string with surrounding whitespace
and loading it back (at the very same instant, well inside the freshness
window) returns the stripped string, which differs from what was saved. -/
theorem C6_counterexample_strip_roundtrip :
    load_cached_data
        (save_to_cache (fun _ => none) 0 "example.com" " 2030-01-01T00:00:00Z ")
        0 "example.com" =
      some "2030-01-01T00:00:00Z" ∧
    (" 2030-01-01T00:00:00Z " : String) ≠ "2030-01-01T00:00:00Z" := by
  refine ⟨by decide, by decide⟩

/-- C6 (amended): for every domain and timestamp string `ts`, saving and then
loading within the freshness window returns `ts` stripped of surrounding
whitespace — hence exactly `ts` whenever `ts` has no surrounding whitespace
(which every well-formed RDAP timestamp satisfies). -/
theorem C6_cache_roundtrip_strip (fs : String → Option FileInfo)
    (domain ts : String) (tw tr : Int) (h : tr - tw < CACHE_AGE) :
    load_cached_data (save_to_cache fs tw domain ts) tr domain =
      some (pyStrip ts) ∧
    (pyStrip ts = ts →
      load_cached_data (save_to_cache fs tw domain ts) tr domain = some ts) := by
  have h1 : load_cached_data (save_to_cache fs tw domain ts) tr domain =
      some (pyStrip ts) := by
    unfold load_cached_data save_to_cache
    rw [if_pos rfl]
    dsimp only
    rw [if_pos h]
  exact ⟨h1, fun hs => by rw [h1, hs]⟩

/-- C6 witness: a round-trip of a canonical timestamp string 100 s after the
save returns it unchanged. -/
theorem C6_cache_roundtrip_strip_witness :
    load_cached_data
        (save_to_cache (fun _ => none) 0 "example.com" "2030-01-01T00:00:00Z")
        100 "example.com" =
      some "2030-01-01T00:00:00Z" :=
  (C6_cache_roundtrip_strip (fun _ => none) "example.com"
      "2030-01-01T00:00:00Z" 0 100 (by decide)).2 (by decide)

/-- C9: a fresh cache file whose content strips to the empty string is a
cache miss — the network lookup runs; and whatever the inputs, a value
returned by `get_domain_expiration` (as opposed to a terminal UNKNOWN) is
never the empty string, because both the cache path and the event scan test
truthiness before returning. -/
theorem C9_empty_cache_refetch (fs : String → Option FileInfo) (now : Int)
    (domain : String) (fetch : FetchResult) (fi : FileInfo)
    (hfs : fs (get_cache_file domain) = some fi)
    (hfresh : now - fi.mtime < CACHE_AGE)
    (hempty : pyStrip fi.content = "") :
    (get_domain_expiration fs now domain fetch).networkCalled = true ∧
    ∀ (fs' : String → Option FileInfo) (now' : Int) (domain' : String)
      (fetch' : FetchResult) (v : String),
      (get_domain_expiration fs' now' domain' fetch').outcome = .ok v →
      v ≠ "" := by
  constructor
  · unfold get_domain_expiration load_cached_data
    rw [hfs]
    dsimp only
    rw [if_pos hfresh]
    dsimp only
    rw [if_pos hempty]
    exact rdapLookup_networkCalled domain fetch
  · intro fs' now' domain' fetch' v hv
    unfold get_domain_expiration at hv
    cases hl : load_cached_data fs' now' domain' with
    | some c =>
      rw [hl] at hv
      dsimp only at hv
      by_cases hc : c = ""
      · rw [if_pos hc] at hv
        exact gde_lookup_ok_ne_empty domain' fetch' v hv
      · rw [if_neg hc] at hv
        cases hv
        exact hc
    | none =>
      rw [hl] at hv
      exact gde_lookup_ok_ne_empty domain' fetch' v hv

/-- C9 witness: a fresh cache file containing only blanks forces the network
call, and the value fetched for a usable expiration event is non-empty. -/
theorem C9_empty_cache_refetch_witness :
    (get_domain_expiration
        (fun p => if p = get_cache_file "example.com"
          then some ⟨"  ", 0⟩ else none)
        10 "example.com" (.failure "boom")).networkCalled = true ∧
    ¬((get_domain_expiration (fun _ => none) 0 "example.com"
        (.failure "boom")).outcome = .ok "") :=
  ⟨(C9_empty_cache_refetch
      (fun p => if p = get_cache_file "example.com"
        then some ⟨"  ", 0⟩ else none)
      10 "example.com" (.failure "boom") ⟨"  ", 0⟩
      (by decide) (by decide) (by decide)).1,
   fun h =>
    (C9_empty_cache_refetch
      (fun p => if p = get_cache_file "example.com"
        then some ⟨"  ", 0⟩ else none)
      10 "example.com" (.failure "boom") ⟨"  ", 0⟩
      (by decide) (by decide) (by decide)).2
      (fun _ => none) 0 "example.com" (.failure "boom") "" h rfl⟩

/-- C10 witness: a domain five days past expiry. -/
theorem C10_expired_at_least_one_day_witness :
    thresholdCheck "example.com" "2020-01-01T00:00:00Z" (-5) 30 10 =
      (STATE_CRITICAL, "CRITICAL - Domain " ++ "example.com" ++ " expired "
        ++ toString (-(-5 : Int)) ++ " days ago ("
        ++ "2020-01-01T00:00:00Z" ++ ").") ∧
    1 ≤ -(-5 : Int) :=
  C10_expired_at_least_one_day "example.com" "2020-01-01T00:00:00Z" (-5) 30 10
    (by decide)

/-- C8: every terminal outcome of a run carries one of the four states with
its monitoring-convention exit code (OK=0, WARNING=1, CRITICAL=2, UNKNOWN=3),
and its single printed message is prefixed with the state's uppercase status
name followed by " - " and the details. -/
theorem C8_output_contract (domain : String) (warning critical : Int)
    (fs : String → Option FileInfo) (now : Int) (fetch : FetchResult)
    (tzoff : Int) :
    ((runMain domain warning critical fs now fetch tzoff).state = STATE_OK ∨
     (runMain domain warning critical fs now fetch tzoff).state = STATE_WARNING ∨
     (runMain domain warning critical fs now fetch tzoff).state = STATE_CRITICAL ∨
     (runMain domain warning critical fs now fetch tzoff).state = STATE_UNKNOWN) ∧
    ∃ rest, (runMain domain warning critical fs now fetch tzoff).message =
      statusName (runMain domain warning critical fs now fetch tzoff).state
        ++ " - " ++ rest := by
  unfold runMain
  rcases gde_outcome_shape fs now domain fetch with ⟨v, hv⟩ | ⟨r, hr⟩
  · rw [hv]
    dsimp only
    rcases parse_rdap_date_shape tzoff v with ⟨n, hn⟩ | hn
    · rw [hn]
      dsimp only
      unfold thresholdCheck
      split_ifs
      · exact ⟨Or.inr (Or.inr (Or.inl rfl)), _, rfl⟩
      · exact ⟨Or.inr (Or.inr (Or.inl rfl)), _, rfl⟩
      · exact ⟨Or.inr (Or.inl rfl), _, rfl⟩
      · exact ⟨Or.inl rfl, _, rfl⟩
    · rw [hn]
      dsimp only
      exact ⟨Or.inr (Or.inr (Or.inr rfl)), _, rfl⟩
  · rw [hr]
    dsimp only
    exact ⟨Or.inr (Or.inr (Or.inr rfl)), _, rfl⟩

end DomainExpiry
